import Mathlib

/-!
Verification of the sandbox container lifecycle manager of agent-of-empires.

The data model and the operations are embedded shallowly in Lean. The
`sounds` CLI subcommands are translated from `src/cli/sounds.rs`; the
Docker lifecycle manager and the session data model are not shipped in
this source tree (only their integration tests are), so they are
modelled from the specification, as marked on each definition.
-/

namespace Aoe

/-- Modelled from the spec: `DockerContainer::generate_name` (the naming
algorithm of §4.1), whose implementation is not in this source tree.
`name = "aoe-sandbox-" + ` the first `min(8, length(session_id))`
characters of the session identifier, by plain truncation. -/
def generate_name (sessionId : String) : String :=
  "aoe-sandbox-" ++ String.mk (sessionId.toList.take 8)

/-- Modelled from the spec: the persisted `SandboxInfo` record (§3),
whose implementation is not in this source tree. The timestamp is kept
abstract as seconds plus nanoseconds, which preserves precision. -/
structure DateTimeUtc where
  secs : Int
  nanos : Nat
deriving DecidableEq, Repr

/-- Modelled from the spec: the `SandboxInfo` record of §3. -/
structure SandboxInfo where
  enabled : Bool
  container_id : Option String
  image : Option String
  container_name : String
  created_at : Option DateTimeUtc
  yolo_mode : Option Bool
deriving DecidableEq, Repr

/-- Modelled from the spec: the session `Instance` entity (§3): identity,
workspace path and an optional `SandboxInfo`. -/
structure Instance where
  id : String
  path : String
  sandbox_info : Option SandboxInfo
deriving DecidableEq, Repr

/-- Modelled from the spec: `Instance::new` creates the record with
`sandbox_info` absent (`SandboxInfo` is created as `None` alongside its
`Instance`). -/
def Instance.new (id path : String) : Instance :=
  { id := id, path := path, sandbox_info := none }

/-- Modelled from the spec: `Instance::is_sandboxed` — true iff
`sandbox_info` is present and its `enabled` field is true. -/
def Instance.is_sandboxed (i : Instance) : Bool :=
  match i.sandbox_info with
  | some si => si.enabled
  | none => false

/-- Modelled from the spec: the `ContainerConfig` value of §3 (pure data,
never mutated after construction). -/
structure ContainerConfig where
  working_dir : String
  volumes : List (String × String)
  named_volumes : List (String × String)
  environment : List (String × String)
  cpu_limit : Option Nat
  memory_limit : Option Nat
deriving DecidableEq, Repr

/-- Modelled from the spec: a typed lifecycle failure (§7); carries the
underlying message. -/
structure DockerError where
  message : String
deriving DecidableEq, Repr

/-- Modelled from the spec: the ground-truth status the runtime reports
for the one container a `DockerContainer` addresses (§4.2 state machine;
`Removed` and the initial `Absent` are indistinguishable to every query,
so both are `absent`). -/
inductive ContainerStatus where
  | absent : ContainerStatus
  | running : ContainerStatus
  | stopped : ContainerStatus
deriving DecidableEq, Repr

/-- Modelled from the spec: the external runtime environment as seen by
one `DockerContainer` — whether the daemon is reachable (§4.3), whether
the configured image resolves (§4.2 `create` failure modes), and the
live status of the addressed container. -/
structure Runtime where
  daemonUp : Bool
  imageOk : Bool
  status : ContainerStatus
deriving DecidableEq, Repr

def statusExists : ContainerStatus → Bool
  | .absent => false
  | .running => true
  | .stopped => true

def statusRunning : ContainerStatus → Bool
  | .running => true
  | .absent => false
  | .stopped => false

namespace DockerContainer

/-- Modelled from the spec: `DockerContainer::exists` (§4.2) — a
not-found container is a valid `false` result, only an unreachable
daemon is an error. -/
def containerExists (rt : Runtime) : Except DockerError Bool :=
  if rt.daemonUp then .ok (statusExists rt.status)
  else .error ⟨"docker daemon is not reachable"⟩

/-- Modelled from the spec: `DockerContainer::is_running` (§4.2) — a
non-existent container yields `false`, not an error. -/
def is_running (rt : Runtime) : Except DockerError Bool :=
  if rt.daemonUp then .ok (statusRunning rt.status)
  else .error ⟨"docker daemon is not reachable"⟩

/-- Modelled from the spec: `DockerContainer::create` (§4.2) — fails if
the daemon is unreachable, if a container with the name already exists,
or if the image cannot be resolved; on success the container is
`Running` and a non-empty identifier is returned. -/
def create (rt : Runtime) (name : String) (_config : ContainerConfig) :
    Except DockerError (Runtime × String) :=
  if ¬ rt.daemonUp then .error ⟨"docker daemon is not reachable"⟩
  else if statusExists rt.status then .error ⟨"container " ++ name ++ " already exists"⟩
  else if ¬ rt.imageOk then .error ⟨"image cannot be resolved"⟩
  else .ok ({ rt with status := .running }, "cid-" ++ name)

/-- Modelled from the spec: `DockerContainer::stop` (§4.2) — transitions
`Running` to `Stopped`, idempotent on an already-stopped container,
fails if the container does not exist. -/
def stop (rt : Runtime) : Except DockerError Runtime :=
  if ¬ rt.daemonUp then .error ⟨"docker daemon is not reachable"⟩
  else match rt.status with
    | .absent => .error ⟨"no such container"⟩
    | .running => .ok { rt with status := .stopped }
    | .stopped => .ok { rt with status := .stopped }

/-- Modelled from the spec: `DockerContainer::remove` (§4.2) — with
`force = false` removal of a still-running container fails; otherwise
the container transitions to removed (absent to every query). -/
def remove (rt : Runtime) (force : Bool) : Except DockerError Runtime :=
  if ¬ rt.daemonUp then .error ⟨"docker daemon is not reachable"⟩
  else match rt.status, force with
    | .running, false => .error ⟨"cannot remove a running container without force"⟩
    | _, _ => .ok { rt with status := .absent }

end DockerContainer

/-- Modelled from the spec: the structured persisted document shape of
the persistence boundary (§6); a small JSON-like value type. -/
inductive Json where
  | null : Json
  | bool : Bool → Json
  | num : Int → Json
  | str : String → Json
  | arr : List Json → Json
  | obj : List (String × Json) → Json

def Json.lookup (j : Json) (k : String) : Option Json :=
  match j with
  | .obj fields => fields.lookup k
  | _ => none

/-- Emit an optional field: absent values produce no field at all, so
absence round-trips without a default being substituted (§6). -/
def optField {α : Type} (k : String) (f : α → Json) : Option α → List (String × Json)
  | none => []
  | some a => [(k, f a)]

def asBool : Option Json → Option Bool
  | some (.bool b) => some b
  | _ => none

def asStr : Option Json → Option String
  | some (.str s) => some s
  | _ => none

def optionalStr (j : Json) (k : String) : Option (Option String) :=
  match j.lookup k with
  | none => some none
  | some (.str s) => some (some s)
  | some _ => none

def optionalBool (j : Json) (k : String) : Option (Option Bool) :=
  match j.lookup k with
  | none => some none
  | some (.bool b) => some (some b)
  | some _ => none

def DateTimeUtc.toJson (t : DateTimeUtc) : Json :=
  .obj [("secs", .num t.secs), ("nanos", .num (Int.ofNat t.nanos))]

def DateTimeUtc.fromJson : Json → Option DateTimeUtc
  | .obj [("secs", .num s), ("nanos", .num n)] => some ⟨s, n.toNat⟩
  | _ => none

def optionalDate (j : Json) (k : String) : Option (Option DateTimeUtc) :=
  match j.lookup k with
  | none => some none
  | some v =>
    match DateTimeUtc.fromJson v with
    | some t => some (some t)
    | none => none

/-- Modelled from the spec: serialization of `SandboxInfo` to the
structured record of §6, fields exactly as listed in §3, optional fields
omitted when absent. -/
def SandboxInfo.toJson (si : SandboxInfo) : Json :=
  .obj ([("enabled", .bool si.enabled)] ++
    optField "container_id" Json.str si.container_id ++
    optField "image" Json.str si.image ++
    [("container_name", .str si.container_name)] ++
    optField "created_at" DateTimeUtc.toJson si.created_at ++
    optField "yolo_mode" Json.bool si.yolo_mode)

/-- Modelled from the spec: deserialization of `SandboxInfo`; a missing
optional field parses to `none`, a missing required field is a parse
failure. -/
def SandboxInfo.fromJson (j : Json) : Option SandboxInfo := do
  let enabled ← asBool (j.lookup "enabled")
  let container_id ← optionalStr j "container_id"
  let image ← optionalStr j "image"
  let container_name ← asStr (j.lookup "container_name")
  let created_at ← optionalDate j "created_at"
  let yolo_mode ← optionalBool j "yolo_mode"
  pure ⟨enabled, container_id, image, container_name, created_at, yolo_mode⟩

def Instance.toJson (i : Instance) : Json :=
  .obj ([("id", .str i.id), ("path", .str i.path)] ++
    optField "sandbox_info" SandboxInfo.toJson i.sandbox_info)

def optionalSandbox (j : Json) (k : String) : Option (Option SandboxInfo) :=
  match j.lookup k with
  | none => some none
  | some v =>
    match SandboxInfo.fromJson v with
    | some si => some (some si)
    | none => none

def Instance.fromJson (j : Json) : Option Instance := do
  let id ← asStr (j.lookup "id")
  let path ← asStr (j.lookup "path")
  let sandbox_info ← optionalSandbox j "sandbox_info"
  pure ⟨id, path, sandbox_info⟩

def decodeAll : List Json → Option (List Instance)
  | [] => some []
  | j :: js => do
    let i ← Instance.fromJson j
    let rest ← decodeAll js
    pure (i :: rest)

/-- Modelled from the spec: the session store (§3, §6), treated as a
pure load/save service over the full collection of `Instance` records;
it holds the serialized document between `save` and `load`. -/
structure Storage where
  group : String
  doc : Option Json

def Storage.new (group : String) : Storage :=
  { group := group, doc := none }

def Storage.save (s : Storage) (instances : List Instance) : Storage :=
  { s with doc := some (.arr (instances.map Instance.toJson)) }

def Storage.load (s : Storage) : Option (List Instance) :=
  match s.doc with
  | none => some []
  | some (.arr js) => decodeAll js
  | some _ => none

/-- An observable effect of the `sounds` CLI: a printed line or one
invocation of `sound::play_sound`. -/
inductive SoundEffect where
  | println (line : String) : SoundEffect
  | play (name : String) : SoundEffect
deriving DecidableEq, Repr

/-- The playback invocations among a list of effects, in order. -/
def plays : List SoundEffect → List String
  | [] => []
  | .play n :: es => n :: plays es
  | .println _ :: es => plays es

/-- `test_sound` from `src/cli/sounds.rs`, as a pure function of the
collaborator result `sound::list_available_sounds()`; returns the
emitted effects and the command result. Printed text is abridged. -/
def test_sound (available : List String) (name : String) :
    List SoundEffect × Except String Unit :=
  if ¬ available.contains name then
    ([.println ("Sound " ++ name ++ " not found."),
      .println "Available sounds:"] ++
      available.map (fun s => .println ("  - " ++ s)), .ok ())
  else
    ([.println ("Playing " ++ name ++ "..."),
      .play name,
      .println "   (If you do not hear anything, check your audio settings)"],
      .ok ())

/-- `install_bundled` from `src/cli/sounds.rs`, as a pure function of
its collaborator results: `sound::install_bundled_sounds()` (propagated
with `?`), `sound::get_sounds_dir()` and
`sound::list_available_sounds()`. Printed text is abridged. -/
def install_bundled (installResult : Except String Unit)
    (sounds_dir : Option String) (available : List String) :
    List SoundEffect × Except String Unit :=
  match installResult with
  | .error e => ([], .error e)
  | .ok _ =>
    match sounds_dir with
    | none => ([], .ok ())
    | some dir =>
      ([.println "Installed bundled CC0 sounds to:",
        .println ("  " ++ dir),
        .println ("Installed " ++ toString available.length ++ " sounds:")] ++
        available.map (fun s => .println ("  - " ++ s)) ++
        [.println "Next steps: launch the TUI and enable sounds in Settings.",
         .println ("To: " ++ dir)], .ok ())

end Aoe

namespace Aoe

theorem generate_name_take_min (id : String) :
    generate_name id = "aoe-sandbox-" ++ String.mk (id.toList.take (min 8 id.length)) := by
  unfold generate_name
  congr 2
  have hlen : id.length = id.toList.length := rfl
  rw [hlen, ← List.take_take, List.take_length]

/-- C1: container-name derivation is pure, total, and equals
"aoe-sandbox-" followed by the first min(8, length(id)) characters of the
identifier; in particular the three documented examples hold. -/
theorem c1_generate_name (id : String) :
    generate_name id = "aoe-sandbox-" ++ String.mk (id.toList.take (min 8 id.length)) ∧
    generate_name "abcd1234" = "aoe-sandbox-abcd1234" ∧
    generate_name "abcdefghijklmnop" = "aoe-sandbox-abcdefgh" ∧
    generate_name "abc" = "aoe-sandbox-abc" := by
  refine ⟨generate_name_take_min id, ?_, ?_, ?_⟩ <;> rfl

/-- C3: `is_sandboxed()` is true iff `sandbox_info` is present with
`enabled = true`; it is false both for an absent record and for a
present-but-disabled record. -/
theorem c3_is_sandboxed (i : Instance) :
    (i.is_sandboxed = true ↔ ∃ si, i.sandbox_info = some si ∧ si.enabled = true) ∧
    (i.sandbox_info = none → i.is_sandboxed = false) ∧
    (∀ si, i.sandbox_info = some si → si.enabled = false → i.is_sandboxed = false) := by
  refine ⟨?_, ?_, ?_⟩
  · constructor
    · intro h
      cases hsi : i.sandbox_info with
      | none => simp [Instance.is_sandboxed, hsi] at h
      | some si =>
        refine ⟨si, rfl, ?_⟩
        simpa [Instance.is_sandboxed, hsi] using h
    · rintro ⟨si, hsi, hen⟩
      simp [Instance.is_sandboxed, hsi, hen]
  · intro h
    simp [Instance.is_sandboxed, h]
  · intro si hsi hen
    simp [Instance.is_sandboxed, hsi, hen]

/-- C2: for a freshly named container (absent, daemon reachable),
`exists()` is false; after a successful `create` the returned identifier
is non-empty, `exists()` is true and `is_running()` is true; after
`stop()`, `exists()` stays true and `is_running()` is false; after
`remove(false)` from the stopped state, `exists()` is false. -/
theorem c2_lifecycle (rt0 : Runtime) (name : String) (cfg : ContainerConfig)
    (rt1 : Runtime) (cid : String)
    (hd : rt0.daemonUp = true) (ha : rt0.status = .absent)
    (hc : DockerContainer.create rt0 name cfg = .ok (rt1, cid)) :
    DockerContainer.containerExists rt0 = .ok false ∧
    cid ≠ "" ∧
    DockerContainer.containerExists rt1 = .ok true ∧
    DockerContainer.is_running rt1 = .ok true ∧
    ∃ rt2, DockerContainer.stop rt1 = .ok rt2 ∧
      DockerContainer.containerExists rt2 = .ok true ∧
      DockerContainer.is_running rt2 = .ok false ∧
      ∃ rt3, DockerContainer.remove rt2 false = .ok rt3 ∧
        DockerContainer.containerExists rt3 = .ok false := by
  have him : rt0.imageOk = true := by
    by_contra h
    simp [DockerContainer.create, hd, ha, statusExists, h] at hc
  have hrt1 : rt1 = ⟨true, true, .running⟩ ∧ cid = "cid-" ++ name := by
    simp [DockerContainer.create, hd, ha, statusExists, him] at hc
    exact ⟨hc.1.symm, hc.2.symm⟩
  obtain ⟨h1, hcid⟩ := hrt1
  subst h1
  refine ⟨by simp [DockerContainer.containerExists, hd, ha, statusExists],
    ?_,
    by simp [DockerContainer.containerExists, statusExists],
    by simp [DockerContainer.is_running, statusRunning],
    ⟨true, true, .stopped⟩, ?_, ?_, ?_, ⟨true, true, .absent⟩, ?_, ?_⟩
  · subst hcid
    intro h
    have hlen := congrArg String.length h
    simp [String.length_append] at hlen
    exact absurd hlen.1 (by decide)
  · simp [DockerContainer.stop]
  · simp [DockerContainer.containerExists, statusExists]
  · simp [DockerContainer.is_running, statusRunning]
  · simp [DockerContainer.remove]
  · simp [DockerContainer.containerExists, statusExists]

theorem c2_lifecycle_witness :
    DockerContainer.create ⟨true, true, .absent⟩ "s" ⟨"/w", [], [], [], none, none⟩ =
      .ok (⟨true, true, .running⟩, "cid-s") ∧
    DockerContainer.containerExists ⟨true, true, .absent⟩ = .ok false := by
  have h := c2_lifecycle ⟨true, true, .absent⟩ "s" ⟨"/w", [], [], [], none, none⟩
    ⟨true, true, .running⟩ "cid-s" rfl rfl (by rfl)
  exact ⟨by rfl, h.1⟩

/-- C6: `remove(true)` on a running container succeeds without a prior
`stop()`, and afterwards `exists()` is false. -/
theorem c6_force_remove (rt : Runtime)
    (hd : rt.daemonUp = true) (hr : rt.status = .running) :
    ∃ rt2, DockerContainer.remove rt true = .ok rt2 ∧
      DockerContainer.containerExists rt2 = .ok false := by
  refine ⟨{ rt with status := .absent }, ?_, ?_⟩
  · simp [DockerContainer.remove, hd, hr]
  · simp [DockerContainer.containerExists, hd, statusExists]

theorem c6_force_remove_witness :
    ∃ rt2, DockerContainer.remove ⟨true, true, .running⟩ true = .ok rt2 ∧
      DockerContainer.containerExists rt2 = .ok false :=
  c6_force_remove ⟨true, true, .running⟩ rfl rfl

/-- C7: `remove(false)` on a running container fails with an error, and
the container (whose state the failed call does not change) still
exists and is still running. -/
theorem c7_remove_running_fails (rt : Runtime)
    (hd : rt.daemonUp = true) (hr : rt.status = .running) :
    (∃ e, DockerContainer.remove rt false = .error e) ∧
    DockerContainer.containerExists rt = .ok true ∧
    DockerContainer.is_running rt = .ok true := by
  refine ⟨⟨⟨"cannot remove a running container without force"⟩, ?_⟩, ?_, ?_⟩
  · simp [DockerContainer.remove, hd, hr]
  · simp [DockerContainer.containerExists, hd, hr, statusExists]
  · simp [DockerContainer.is_running, hd, hr, statusRunning]

theorem c7_remove_running_fails_witness :
    (∃ e, DockerContainer.remove ⟨true, true, .running⟩ false = .error e) ∧
    DockerContainer.containerExists ⟨true, true, .running⟩ = .ok true ∧
    DockerContainer.is_running ⟨true, true, .running⟩ = .ok true :=
  c7_remove_running_fails ⟨true, true, .running⟩ rfl rfl

/-- C8: a state query against an absent container is not an error —
`exists()` and `is_running()` return `Ok false` when the container is
absent and the daemon is reachable; these queries return an error only
when the environment has failed (daemon unreachable). -/
theorem c8_query_absent (rt : Runtime) :
    (rt.daemonUp = true → rt.status = .absent →
      DockerContainer.containerExists rt = .ok false ∧
      DockerContainer.is_running rt = .ok false) ∧
    (∀ e, DockerContainer.containerExists rt = .error e → rt.daemonUp = false) ∧
    (∀ e, DockerContainer.is_running rt = .error e → rt.daemonUp = false) := by
  refine ⟨?_, ?_, ?_⟩
  · intro hd ha
    constructor
    · simp [DockerContainer.containerExists, hd, ha, statusExists]
    · simp [DockerContainer.is_running, hd, ha, statusRunning]
  · intro e he
    by_contra h
    simp [DockerContainer.containerExists, eq_true_of_ne_false h] at he
  · intro e he
    by_contra h
    simp [DockerContainer.is_running, eq_true_of_ne_false h] at he

theorem c8_query_absent_witness :
    DockerContainer.containerExists ⟨true, true, .absent⟩ = .ok false ∧
    DockerContainer.is_running ⟨true, true, .absent⟩ = .ok false :=
  (c8_query_absent ⟨true, true, .absent⟩).1 rfl rfl

theorem dateTime_roundtrip (t : DateTimeUtc) :
    DateTimeUtc.fromJson (DateTimeUtc.toJson t) = some t := by
  simp [DateTimeUtc.toJson, DateTimeUtc.fromJson]

theorem sandboxInfo_roundtrip (si : SandboxInfo) :
    SandboxInfo.fromJson (SandboxInfo.toJson si) = some si := by
  rcases si with ⟨e, cid, img, cname, cat, ym⟩
  cases cid <;> cases img <;> cases cat <;> cases ym <;>
    simp [SandboxInfo.toJson, SandboxInfo.fromJson, Json.lookup, optField,
      asBool, asStr, optionalStr, optionalBool, optionalDate,
      DateTimeUtc.toJson, DateTimeUtc.fromJson, List.lookup]

theorem instance_roundtrip (i : Instance) :
    Instance.fromJson (Instance.toJson i) = some i := by
  rcases i with ⟨id, path, si⟩
  cases si with
  | none =>
    simp [Instance.toJson, Instance.fromJson, Json.lookup, optField,
      asStr, optionalSandbox, List.lookup]
  | some si =>
    simp [Instance.toJson, Instance.fromJson, Json.lookup, optField,
      asStr, optionalSandbox, List.lookup, sandboxInfo_roundtrip]

/-- C4: serializing a `SandboxInfo` and deserializing yields a value
equal field-for-field to the original, timestamp precision included,
with every optional field round-tripping through absence without a
default being substituted. -/
theorem c4_sandbox_info_roundtrip (si : SandboxInfo) :
    SandboxInfo.fromJson (SandboxInfo.toJson si) = some si :=
  sandboxInfo_roundtrip si

/-- C5: saving a list of one `Instance` with a populated `sandbox_info`
through the session store and reloading yields a list of the same
length whose record keeps `container_id`, `image`, `container_name` and
`enabled` unchanged. -/
theorem c5_save_load (g : String) (inst : Instance) (si : SandboxInfo)
    (h : inst.sandbox_info = some si) :
    ∃ l, ((Storage.new g).save [inst]).load = some l ∧ l.length = 1 ∧
      ∃ inst2, l.head? = some inst2 ∧ ∃ si2, inst2.sandbox_info = some si2 ∧
        si2.container_id = si.container_id ∧ si2.image = si.image ∧
        si2.container_name = si.container_name ∧ si2.enabled = si.enabled := by
  refine ⟨[inst], ?_, rfl, inst, rfl, si, h, rfl, rfl, rfl, rfl⟩
  simp [Storage.new, Storage.save, Storage.load, decodeAll, instance_roundtrip]

theorem c5_save_load_witness :
    ∃ l, ((Storage.new "sandbox_test").save
        [⟨"sandbox-session", "/tmp/project",
          some ⟨true, some "container123", some "custom:image",
            "aoe-sandbox-abcd1234", some ⟨1700000000, 123456789⟩, some true⟩⟩]).load =
        some l ∧ l.length = 1 ∧
      ∃ inst2, l.head? = some inst2 ∧ ∃ si2, inst2.sandbox_info = some si2 ∧
        si2.container_id = some "container123" ∧ si2.image = some "custom:image" ∧
        si2.container_name = "aoe-sandbox-abcd1234" ∧ si2.enabled = true :=
  c5_save_load "sandbox_test"
    ⟨"sandbox-session", "/tmp/project",
      some ⟨true, some "container123", some "custom:image",
        "aoe-sandbox-abcd1234", some ⟨1700000000, 123456789⟩, some true⟩⟩
    ⟨true, some "container123", some "custom:image",
      "aoe-sandbox-abcd1234", some ⟨1700000000, 123456789⟩, some true⟩ rfl

theorem plays_append (a b : List SoundEffect) :
    plays (a ++ b) = plays a ++ plays b := by
  induction a with
  | nil => rfl
  | cons e es ih => cases e <;> simp [plays, ih]

theorem plays_println_map (f : String → String) (l : List String) :
    plays (l.map fun s => .println (f s)) = [] := by
  induction l with
  | nil => rfl
  | cons s l ih => simp [plays, ih]

/-- C9: `sounds test` returns success whether or not the name is among
the installed sounds, and `play_sound` is invoked exactly once with
exactly the given name when the name is in
`list_available_sounds()`, and not at all otherwise. -/
theorem c9_test_sound (available : List String) (name : String) :
    (test_sound available name).2 = .ok () ∧
    plays (test_sound available name).1 =
      (if available.contains name then [name] else []) := by
  by_cases h : name ∈ available
  · simp [test_sound, h, plays]
  · simp [test_sound, h, plays, plays_println_map]

/-- C10: `sounds install` fails iff installing the bundled sounds
fails; when installation succeeds but `get_sounds_dir()` is `None`, the
command still succeeds and emits no post-install report. -/
theorem c10_install_bundled (ir : Except String Unit) (dir : Option String)
    (av : List String) :
    ((∃ e, (install_bundled ir dir av).2 = .error e) ↔ ∃ e, ir = .error e) ∧
    (ir = .ok () → dir = none → install_bundled ir dir av = ([], .ok ())) := by
  cases ir with
  | error e => cases dir <;> simp [install_bundled]
  | ok u =>
    cases u
    cases dir <;> simp [install_bundled]

theorem c10_install_bundled_witness :
    install_bundled (.ok ()) none ["drums"] = ([], .ok ()) :=
  (c10_install_bundled (.ok ()) none ["drums"]).2 rfl rfl

end Aoe
